import Mathlib

/-!
Formal model of the CIP client core of the Buddmeyer vision system
(`buddmeyer_vision_v2/communication/cip_client.py`), shallowly embedded in
Lean: the mutable client object becomes explicit state passing, Python
exceptions become `Except` results paired with the post-call state, and the
opaque transport driver becomes an explicit behaviour oracle.  Logging,
metrics, Qt signal emission and timer scheduling are side effects with no
influence on the client state modelled here and are omitted.
-/

namespace CIP

/-- Runtime tag values exchanged with the PLC.  Python floats carry no
arithmetic in the modelled code (they are only stored and read back), so
they are embedded as rationals. -/
inductive Value where
  | vbool : Bool → Value
  | vint : Int → Value
  | vfloat : ℚ → Value
deriving DecidableEq, Repr

/-- Access direction of a tag descriptor. -/
inductive Direction where
  | read
  | write
  | readWrite
deriving DecidableEq, Repr

/-- Value kind declared by a tag descriptor. -/
inductive ValueKind where
  | kbool
  | kint
  | kfloat
deriving DecidableEq, Repr

/-- Kind of a runtime value. -/
def Value.kind : Value → ValueKind
  | .vbool _ => .kbool
  | .vint _ => .kint
  | .vfloat _ => .kfloat

/-- Modelled from the spec: the `TagMap` module (`communication/tag_map.py`)
is not among the provided sources; §3 "TagDescriptor" describes an immutable
record with logical name (the table key), physical name, direction, value
kind and an optional numeric range. -/
structure TagDescriptor where
  physicalName : String
  direction : Direction
  valueKind : ValueKind
  range : Option (ℚ × ℚ) := none
deriving DecidableEq, Repr

/-- Modelled from the spec: static, read-only descriptor table keyed by
logical name (§2, §4.2). -/
structure TagMap where
  table : List (String × TagDescriptor)
deriving DecidableEq, Repr

/-- Descriptor for a logical name, if declared. -/
def TagMap.find (m : TagMap) (ln : String) : Option TagDescriptor :=
  m.table.lookup ln

/-- Modelled from the spec: true iff the name exists in the descriptor
table (§4.2). -/
def TagMap.is_valid_tag (m : TagMap) (ln : String) : Bool :=
  (m.find ln).isSome

/-- Modelled from the spec: true iff the descriptor's direction permits
reading (§4.2); unknown names are not readable. -/
def TagMap.is_readable (m : TagMap) (ln : String) : Bool :=
  match m.find ln with
  | some d => d.direction == .read || d.direction == .readWrite
  | none => false

/-- Modelled from the spec: true iff the descriptor's direction permits
writing (§4.2); unknown names are not writable. -/
def TagMap.is_writable (m : TagMap) (ln : String) : Bool :=
  match m.find ln with
  | some d => d.direction == .write || d.direction == .readWrite
  | none => false

/-- Modelled from the spec: true iff the value's kind matches the declared
kind and, when a numeric range is declared, the value lies within it;
unknown names validate to false (§4.2). -/
def TagMap.validate_value (m : TagMap) (ln : String) (v : Value) : Bool :=
  match m.find ln with
  | none => false
  | some d =>
    v.kind == d.valueKind &&
    (match d.range, v with
     | some (lo, hi), .vint i => decide (lo ≤ (i : ℚ) ∧ (i : ℚ) ≤ hi)
     | some (lo, hi), .vfloat q => decide (lo ≤ q ∧ q ≤ hi)
     | _, _ => true)

/-- Modelled from the spec: physical register name of a logical tag
(§4.2); `none` for unknown names (the Python version raises there). -/
def TagMap.get_plc_name (m : TagMap) (ln : String) : Option String :=
  (m.find ln).map (·.physicalName)

/-- Default register table of the simulated PLC
(`SimulatedPLC.__init__` in `cip_client.py`). -/
def simulatedDefaultTags : List (String × Value) :=
  [("VisionCtrl_VisionReady", .vbool false),
   ("VisionCtrl_VisionBusy", .vbool false),
   ("VisionCtrl_VisionError", .vbool false),
   ("VisionCtrl_Heartbeat", .vbool false),
   ("PRODUCT_DETECTED", .vbool false),
   ("CENTROID_X", .vfloat 0),
   ("CENTROID_Y", .vfloat 0),
   ("CONFIDENCE", .vfloat 0),
   ("DETECTION_COUNT", .vint 0),
   ("PROCESSING_TIME", .vfloat 0),
   ("VisionCtrl_EchoAck", .vbool false),
   ("VisionCtrl_DataSent", .vbool false),
   ("VisionCtrl_ReadyForNext", .vbool false),
   ("SYSTEM_FAULT", .vbool false),
   ("ROBOT_ACK", .vbool false),
   ("ROBOT_READY", .vbool true),
   ("ROBOT_ERROR", .vbool false),
   ("RobotStatus_Busy", .vbool false),
   ("RobotStatus_PickComplete", .vbool false),
   ("RobotStatus_PlaceComplete", .vbool false),
   ("RobotCtrl_AuthorizeDetection", .vbool true),
   ("RobotCtrl_CycleStart", .vbool false),
   ("RobotCtrl_CycleComplete", .vbool false),
   ("RobotCtrl_EmergencyStop", .vbool false),
   ("RobotCtrl_SystemMode", .vint 1),
   ("SystemStatus_Heartbeat", .vbool false),
   ("SystemStatus_Mode", .vint 1),
   ("Safety_GateClosed", .vbool true),
   ("Safety_AreaClear", .vbool true),
   ("Safety_LightCurtainOK", .vbool true),
   ("Safety_EmergencyStop", .vbool true)]

/-- In-memory PLC stand-in (`SimulatedPLC` in `cip_client.py`): an
association store from physical names to current values; the newest
binding for a name is the current one.  The `threading.Timer` auto-ack
scheduling of `write_variable` is real-time behaviour outside this state
model and does not alter the immediate store update. -/
structure SimulatedPLC where
  tags : List (String × Value)
deriving DecidableEq, Repr

/-- Fresh simulated PLC (`SimulatedPLC.__init__`). -/
def SimulatedPLC.start : SimulatedPLC :=
  ⟨simulatedDefaultTags⟩

/-- `SimulatedPLC.read_variable`: `self._tags.get(name, 0)` — the stored
value, or the integer 0 default for unknown names. -/
def SimulatedPLC.read_variable (p : SimulatedPLC) (name : String) : Value :=
  (p.tags.lookup name).getD (.vint 0)

/-- `SimulatedPLC.write_variable`: `self._tags[name] = value`. -/
def SimulatedPLC.write_variable (p : SimulatedPLC) (name : String) (v : Value) : SimulatedPLC :=
  ⟨(name, v) :: p.tags⟩

/-- Connection status enumeration
(`communication/connection_state.ConnectionStatus`, values as used by
`cip_client.py` and §4.1 of the spec). -/
inductive ConnectionStatus where
  | DISCONNECTED
  | CONNECTING
  | CONNECTED
  | SIMULATED
  | DEGRADED
deriving DecidableEq, Repr

/-- Modelled from the spec: `communication/connection_state.py` is not
among the provided sources; §3 describes `ConnectionState` as a plain
mutable record with these fields, and `cip_client.py` mutates the fields
directly one at a time. -/
structure ConnectionState where
  status : ConnectionStatus
  ip : String
  port : Nat
  is_simulated : Bool := false
  last_connected : Option Nat := none
  last_error : Option String := none
  error_count : Nat := 0
deriving DecidableEq, Repr

/-- Modelled from the spec: `is_connected` holds exactly in the connected
statuses — §4.3 "requires `status` to denote a connected session
(CONNECTED, SIMULATED, or DEGRADED)". -/
def ConnectionState.is_connected (s : ConnectionState) : Bool :=
  s.status == .CONNECTED || s.status == .SIMULATED || s.status == .DEGRADED

/-- Error kinds raised by the client, one constructor per distinct raise
site in `cip_client.py` (`CIPConnectionError` for the not-connected check,
`CIPTagError` for the validation and wrapped-backend failures). -/
inductive CIPErr where
  | connectionError : CIPErr
  | tagNotAllowed : String → CIPErr
  | tagNotReadable : String → CIPErr
  | tagNotWritable : String → CIPErr
  | invalidValue : String → CIPErr
  | tagReadFailed : String → CIPErr
  | tagWriteFailed : String → CIPErr
deriving DecidableEq, Repr

/-- One backend operation as observed by the device driver. -/
inductive BackendCall where
  | readV : String → BackendCall
  | writeV : String → Value → BackendCall
deriving DecidableEq, Repr

/-- Opaque transport session (the aphyt driver handle): the behaviour
oracles give the outcome of the n-th backend operation (`none`/`false`
standing for a raised driver error), and `calls` records every backend
operation actually dispatched, in order. -/
structure RealPLC where
  readBeh : Nat → Option Value
  writeBeh : Nat → Bool
  calls : List BackendCall := []
  count : Nat := 0

/-- A blocking driver read (`self._plc.read_variable`). -/
def RealPLC.read_variable (p : RealPLC) (name : String) : Option Value × RealPLC :=
  (p.readBeh p.count, { p with calls := p.calls ++ [.readV name], count := p.count + 1 })

/-- A blocking driver write (`self._plc.write_variable`). -/
def RealPLC.write_variable (p : RealPLC) (name : String) (v : Value) : Bool × RealPLC :=
  (p.writeBeh p.count, { p with calls := p.calls ++ [.writeV name v], count := p.count + 1 })

/-- Connection-related configuration snapshot (`settings.cip` as read by
`cip_client.py`: ip, port, connection timeout, forced-simulation flag). -/
structure Config where
  ip : String
  port : Nat
  timeout : Nat
  simulated : Bool
deriving DecidableEq, Repr

/-- State of the `CIPClient` object: cached connection parameters, the two
possible backends, and the connection-state record. -/
structure Client where
  tagMap : TagMap
  ip : String
  port : Nat
  timeout : Nat
  simulated : Bool
  plc : Option RealPLC := none
  simulatedPlc : Option SimulatedPLC := none
  state : ConnectionState

/-- `CIPClient.__init__`: parameters from the settings snapshot, no
backend, DISCONNECTED state. -/
def initClient (tm : TagMap) (cfg : Config) : Client :=
  { tagMap := tm
    ip := cfg.ip
    port := cfg.port
    timeout := cfg.timeout
    simulated := cfg.simulated
    state := { status := .DISCONNECTED, ip := cfg.ip, port := cfg.port } }

/-- `CIPClient._reload_connection_config`: refreshes ip, port, timeout and
the simulation flag from the current settings snapshot. -/
def reload_connection_config (cfg : Config) (c : Client) : Client :=
  { c with
    ip := cfg.ip
    port := cfg.port
    timeout := cfg.timeout
    simulated := cfg.simulated
    state := { c.state with ip := cfg.ip, port := cfg.port } }

/-- `CIPClient._connect_simulated`: installs a fresh simulated PLC, marks
the state simulated and SIMULATED.  (Returns True in the source.) -/
def connect_simulated (c : Client) : Client :=
  { c with
    simulatedPlc := some SimulatedPLC.start
    state := { c.state with is_simulated := true, status := .SIMULATED } }

/-- Result of a `connect()` call: the returned boolean, the post-call
client, and the `(self._ip, self._timeout)` arguments passed to
`_connect_sync` (`none` when no real session was attempted). -/
structure ConnectResult where
  ok : Bool
  client : Client
  dialed : Option (String × Nat)

/-- `CIPClient.connect`: `dial` is the outcome of the transport session
attempt (`_connect_sync`); every transport failure mode — timeout, refusal,
missing driver package, any raised driver error — is the `false` case, matching
the bare `except Exception` fallback in the source. -/
def connect (cfg : Config) (rb : Nat → Option Value) (wb : Nat → Bool) (dial : Bool)
    (c : Client) : ConnectResult :=
  if c.state.is_connected then ⟨true, c, none⟩
  else
    let c1 := reload_connection_config cfg c
    let c2 := { c1 with state := { c1.state with status := .CONNECTING } }
    if c2.simulated then ⟨true, connect_simulated c2, none⟩
    else if dial then
      ⟨true,
       { c2 with
         plc := some { readBeh := rb, writeBeh := wb }
         state := { c2.state with last_connected := some 0, status := .CONNECTED } },
       some (c2.ip, c2.timeout)⟩
    else ⟨true, connect_simulated c2, some (c2.ip, c2.timeout)⟩

/-- `CIPClient.disconnect`: closes and drops the real session (close errors
are swallowed into a logged warning), discards the simulated PLC, and
re-enters DISCONNECTED. -/
def disconnect (c : Client) : Client :=
  { c with
    plc := none
    simulatedPlc := none
    state := { c.state with status := .DISCONNECTED } }

/-- `CIPClient._handle_error`: increments the error counter, records the
error, and marks the state DEGRADED when the counter exceeds 5 while
CONNECTED. -/
def handle_error (err : String) (c : Client) : Client :=
  let st := { c.state with error_count := c.state.error_count + 1, last_error := some err }
  let st2 := if 5 < st.error_count ∧ st.status = .CONNECTED
             then { st with status := .DEGRADED } else st
  { c with state := st2 }

/-- `CIPClient.read_tag`: connectedness check, whitelist validation
(existence then readability), physical-name resolution, then dispatch to
the active backend; a backend failure feeds `_handle_error` and surfaces
as a wrapped tag error. -/
def read_tag (c : Client) (ln : String) : Except CIPErr Value × Client :=
  if !c.state.is_connected then (.error .connectionError, c)
  else if !c.tagMap.is_valid_tag ln then (.error (.tagNotAllowed ln), c)
  else if !c.tagMap.is_readable ln then (.error (.tagNotReadable ln), c)
  else
    match c.tagMap.get_plc_name ln with
    | none => (.error (.tagNotAllowed ln), c)
    | some pn =>
      match c.simulatedPlc with
      | some sp => (.ok (sp.read_variable pn), c)
      | none =>
        match c.plc with
        | some p =>
          let r := p.read_variable pn
          match r.1 with
          | some v => (.ok v, { c with plc := some r.2 })
          | none =>
            (.error (.tagReadFailed ln), handle_error "read failed" { c with plc := some r.2 })
        | none => (.error (.tagReadFailed ln), handle_error "no session" c)

/-- `CIPClient.write_tag`: connectedness check, whitelist validation
(existence, then writability, then value validity), physical-name
resolution, then dispatch to the active backend; a backend failure feeds
`_handle_error` and surfaces as a wrapped tag error. -/
def write_tag (c : Client) (ln : String) (v : Value) : Except CIPErr Bool × Client :=
  if !c.state.is_connected then (.error .connectionError, c)
  else if !c.tagMap.is_valid_tag ln then (.error (.tagNotAllowed ln), c)
  else if !c.tagMap.is_writable ln then (.error (.tagNotWritable ln), c)
  else if !c.tagMap.validate_value ln v then (.error (.invalidValue ln), c)
  else
    match c.tagMap.get_plc_name ln with
    | none => (.error (.tagNotAllowed ln), c)
    | some pn =>
      match c.simulatedPlc with
      | some sp => (.ok true, { c with simulatedPlc := some (sp.write_variable pn v) })
      | none =>
        match c.plc with
        | some p =>
          let r := p.write_variable pn v
          if r.1 then (.ok true, { c with plc := some r.2 })
          else (.error (.tagWriteFailed ln), handle_error "write failed" { c with plc := some r.2 })
        | none => (.error (.tagWriteFailed ln), handle_error "no session" c)

/-- `CIPClient.write_detection_result`: the fixed sequence of seven writes;
any raised error from a sub-write is caught and converted into the overall
return value `False` (the `try`/`except` wrapping the whole block). -/
def write_detection_result (c : Client) (detected : Bool)
    (centroid_x centroid_y confidence : ℚ) (detection_count : Int)
    (processing_time : ℚ) : Bool × Client :=
  match write_tag c "ProductDetected" (.vbool detected) with
  | (.error _, c1) => (false, c1)
  | (.ok _, c1) =>
    match write_tag c1 "CentroidX" (.vfloat centroid_x) with
    | (.error _, c2) => (false, c2)
    | (.ok _, c2) =>
      match write_tag c2 "CentroidY" (.vfloat centroid_y) with
      | (.error _, c3) => (false, c3)
      | (.ok _, c3) =>
        match write_tag c3 "Confidence" (.vfloat confidence) with
        | (.error _, c4) => (false, c4)
        | (.ok _, c4) =>
          match write_tag c4 "DetectionCount" (.vint detection_count) with
          | (.error _, c5) => (false, c5)
          | (.ok _, c5) =>
            match write_tag c5 "ProcessingTime" (.vfloat processing_time) with
            | (.error _, c6) => (false, c6)
            | (.ok _, c6) =>
              match write_tag c6 "VisionDataSent" (.vbool true) with
              | (.error _, c7) => (false, c7)
              | (.ok _, c7) => (true, c7)

/-- Backend call log of the client's real session, empty when none. -/
def Client.backendCalls (c : Client) : List BackendCall :=
  match c.plc with
  | some p => p.calls
  | none => []

/-- Modelled from the spec: the concrete descriptor table lives in the
missing `tag_map.py`; this table lists the logical names used by
`cip_client.py`, with the physical register names of the simulated PLC's
default table and the directions and kinds implied by §2/§4.2 and the call
sites.  No numeric ranges are declared, since the spec enumerates none. -/
def defaultTagMap : TagMap :=
  ⟨[("ProductDetected", ⟨"PRODUCT_DETECTED", .write, .kbool, none⟩),
    ("CentroidX", ⟨"CENTROID_X", .write, .kfloat, none⟩),
    ("CentroidY", ⟨"CENTROID_Y", .write, .kfloat, none⟩),
    ("Confidence", ⟨"CONFIDENCE", .write, .kfloat, none⟩),
    ("DetectionCount", ⟨"DETECTION_COUNT", .write, .kint, none⟩),
    ("ProcessingTime", ⟨"PROCESSING_TIME", .write, .kfloat, none⟩),
    ("VisionDataSent", ⟨"VisionCtrl_DataSent", .write, .kbool, none⟩),
    ("VisionReady", ⟨"VisionCtrl_VisionReady", .write, .kbool, none⟩),
    ("VisionEchoAck", ⟨"VisionCtrl_EchoAck", .write, .kbool, none⟩),
    ("VisionReadyForNext", ⟨"VisionCtrl_ReadyForNext", .write, .kbool, none⟩),
    ("VisionHeartbeat", ⟨"VisionCtrl_Heartbeat", .write, .kbool, none⟩),
    ("RobotAck", ⟨"ROBOT_ACK", .read, .kbool, none⟩)]⟩

/-- Expected backend write sequence of `write_detection_result`, in source
order with the physical names of the written tags. -/
def detectionWrites (detected : Bool) (x y confidence : ℚ) (n : Int) (t : ℚ) :
    List BackendCall :=
  [.writeV "PRODUCT_DETECTED" (.vbool detected),
   .writeV "CENTROID_X" (.vfloat x),
   .writeV "CENTROID_Y" (.vfloat y),
   .writeV "CONFIDENCE" (.vfloat confidence),
   .writeV "DETECTION_COUNT" (.vint n),
   .writeV "PROCESSING_TIME" (.vfloat t),
   .writeV "VisionCtrl_DataSent" (.vbool true)]

/-- Demonstration configuration for concrete scenarios: real device at
10.0.0.5:44818, simulation not forced. -/
def demoCfg : Config :=
  { ip := "10.0.0.5", port := 44818, timeout := 5, simulated := false }

/-- A freshly initialized, disconnected client over the default tag map. -/
def discClient : Client :=
  initClient defaultTagMap demoCfg

/-- A client whose transport attempt failed at connect time, i.e. a
simulated connection. -/
def simClient : Client :=
  (connect demoCfg (fun _ => none) (fun _ => false) false discClient).client

/-- Trace for the error-counter reset question: a real connection whose
driver fails every write. -/
def cTraceConnected : Client :=
  (connect demoCfg (fun _ => none) (fun _ => false) true discClient).client

/-- Trace, next step: one failed write through the driver raises the error
counter to 1. -/
def cTraceErr : Client :=
  (write_tag cTraceConnected "VisionReady" (.vbool true)).2

/-- Trace, final step: disconnect, then a successful reconnect. -/
def cTraceReconnect : ConnectResult :=
  connect demoCfg (fun _ => none) (fun _ => true) true (disconnect cTraceErr)

/-- Trace for the simulation-flag question: a simulated session followed by
a disconnect and then a genuinely successful real connection. -/
def cTraceRealAfterSim : Client :=
  (connect demoCfg (fun _ => none) (fun _ => true) true (disconnect simClient)).client

/-- A client holding a real session backed by the given driver handle, with
the default tag map: the shape reached right after a successful real
connect. -/
def mkRealClient (ip : String) (port timeout : Nat) (sim : Bool) (p : RealPLC)
    (st : ConnectionState) : Client :=
  { tagMap := defaultTagMap, ip := ip, port := port, timeout := timeout,
    simulated := sim, plc := some p, simulatedPlc := none, state := st }

/-- Driver handle whose writes succeed twice and then fail, for the
third-sub-write scenario. -/
def failThirdPLC : RealPLC :=
  { readBeh := fun _ => none, writeBeh := fun k => decide (k < 2) }

/-- Concrete connected client over the failing-third-write driver. -/
def failThirdClient : Client :=
  mkRealClient "10.0.0.5" 44818 5 false failThirdPLC
    { status := .CONNECTED, ip := "10.0.0.5", port := 44818 }

/-- C1: a `connect()` starting from DISCONNECTED returns success and ends
in CONNECTED or SIMULATED for every transport outcome; a transport failure
is never propagated and instead yields a simulated connection, visible via
the `is_simulated` flag. -/
theorem connect_total_from_disconnected (cfg : Config) (rb : Nat → Option Value)
    (wb : Nat → Bool) (dial : Bool) (c : Client)
    (h : c.state.status = .DISCONNECTED) :
    (connect cfg rb wb dial c).ok = true ∧
    ((connect cfg rb wb dial c).client.state.status = .CONNECTED ∨
     (connect cfg rb wb dial c).client.state.status = .SIMULATED) ∧
    (cfg.simulated = false → dial = false →
      (connect cfg rb wb dial c).client.state.status = .SIMULATED ∧
      (connect cfg rb wb dial c).client.state.is_simulated = true) := by
  have hc : c.state.is_connected = false := by
    simp [ConnectionState.is_connected, h]
  cases hs : cfg.simulated <;> cases dial <;>
    simp [connect, hc, hs, reload_connection_config, connect_simulated]

/-- Witness for C1 at a concrete disconnected client and a refused dial. -/
theorem connect_total_from_disconnected_witness :
    (connect demoCfg (fun _ => none) (fun _ => false) false discClient).ok = true ∧
    ((connect demoCfg (fun _ => none) (fun _ => false) false discClient).client.state.status
        = .CONNECTED ∨
     (connect demoCfg (fun _ => none) (fun _ => false) false discClient).client.state.status
        = .SIMULATED) ∧
    (demoCfg.simulated = false → false = false →
      (connect demoCfg (fun _ => none) (fun _ => false) false discClient).client.state.status
          = .SIMULATED ∧
      (connect demoCfg (fun _ => none) (fun _ => false) false discClient).client.state.is_simulated
          = true) :=
  connect_total_from_disconnected demoCfg (fun _ => none) (fun _ => false) false discClient rfl

/-- C6: every `connect()` that is not a no-op refreshes ip, port, timeout
and the simulation flag from the live configuration snapshot before the
dial, and the dial arguments are exactly the freshly loaded address and
timeout, independent of whatever stale values the client held. -/
theorem connect_reloads_live_config (cfg : Config) (rb : Nat → Option Value)
    (wb : Nat → Bool) (dial : Bool) (c : Client)
    (h : c.state.is_connected = false) :
    (connect cfg rb wb dial c).dialed =
      (if cfg.simulated then none else some (cfg.ip, cfg.timeout)) ∧
    (connect cfg rb wb dial c).client.ip = cfg.ip ∧
    (connect cfg rb wb dial c).client.port = cfg.port ∧
    (connect cfg rb wb dial c).client.timeout = cfg.timeout ∧
    (connect cfg rb wb dial c).client.simulated = cfg.simulated ∧
    (connect cfg rb wb dial c).client.state.ip = cfg.ip ∧
    (connect cfg rb wb dial c).client.state.port = cfg.port := by
  cases hs : cfg.simulated <;> cases dial <;>
    simp [connect, h, hs, reload_connection_config, connect_simulated]

/-- Witness for C6, mirroring `scripts/test_cip_config_reload.py`: a client
holding the stale address 192.168.1.99:9999 dials the configured address
10.0.0.5 with the configured timeout on its next connect. -/
theorem connect_reloads_live_config_witness :
    (connect demoCfg (fun _ => none) (fun _ => true) true
        { discClient with
          ip := "192.168.1.99"
          port := 9999
          timeout := 1 }).dialed =
      (if demoCfg.simulated then none else some (demoCfg.ip, demoCfg.timeout)) ∧
    (connect demoCfg (fun _ => none) (fun _ => true) true
        { discClient with
          ip := "192.168.1.99"
          port := 9999
          timeout := 1 }).client.ip = demoCfg.ip ∧
    (connect demoCfg (fun _ => none) (fun _ => true) true
        { discClient with
          ip := "192.168.1.99"
          port := 9999
          timeout := 1 }).client.port = demoCfg.port ∧
    (connect demoCfg (fun _ => none) (fun _ => true) true
        { discClient with
          ip := "192.168.1.99"
          port := 9999
          timeout := 1 }).client.timeout = demoCfg.timeout ∧
    (connect demoCfg (fun _ => none) (fun _ => true) true
        { discClient with
          ip := "192.168.1.99"
          port := 9999
          timeout := 1 }).client.simulated = demoCfg.simulated ∧
    (connect demoCfg (fun _ => none) (fun _ => true) true
        { discClient with
          ip := "192.168.1.99"
          port := 9999
          timeout := 1 }).client.state.ip = demoCfg.ip ∧
    (connect demoCfg (fun _ => none) (fun _ => true) true
        { discClient with
          ip := "192.168.1.99"
          port := 9999
          timeout := 1 }).client.state.port = demoCfg.port :=
  connect_reloads_live_config demoCfg (fun _ => none) (fun _ => true) true
    { discClient with ip := "192.168.1.99", port := 9999, timeout := 1 } rfl

/-- C5: on a connected client, an unknown tag, a direction violation, or an
invalid write value is rejected with the corresponding tag error, checked
in the order existence, direction, value validity, and the client is
returned completely unchanged — so no backend call is made and the error
counter is not incremented. -/
theorem validation_rejects_before_backend (c : Client) (ln : String) (v : Value)
    (hconn : c.state.is_connected = true) :
    (c.tagMap.is_valid_tag ln = false →
       read_tag c ln = (.error (.tagNotAllowed ln), c) ∧
       write_tag c ln v = (.error (.tagNotAllowed ln), c)) ∧
    (c.tagMap.is_valid_tag ln = true → c.tagMap.is_readable ln = false →
       read_tag c ln = (.error (.tagNotReadable ln), c)) ∧
    (c.tagMap.is_valid_tag ln = true → c.tagMap.is_writable ln = false →
       write_tag c ln v = (.error (.tagNotWritable ln), c)) ∧
    (c.tagMap.is_valid_tag ln = true → c.tagMap.is_writable ln = true →
       c.tagMap.validate_value ln v = false →
       write_tag c ln v = (.error (.invalidValue ln), c)) := by
  refine ⟨fun h1 => ⟨?_, ?_⟩, fun h1 h2 => ?_, fun h1 h2 => ?_, fun h1 h2 h3 => ?_⟩ <;>
    simp [read_tag, write_tag, hconn, h1]
  · simp [h2]
  · simp [h2]
  · simp [h2, h3]

/-- Witness for C5: on a concrete connected client, an unknown tag is
rejected with a tag error, and a write to the read-only robot
acknowledgement tag is rejected as not writable; both leave the client
untouched. -/
theorem validation_rejects_before_backend_witness :
    read_tag simClient "NoSuchTag" = (.error (.tagNotAllowed "NoSuchTag"), simClient) ∧
    write_tag simClient "RobotAck" (.vbool true)
      = (.error (.tagNotWritable "RobotAck"), simClient) :=
  ⟨((validation_rejects_before_backend simClient "NoSuchTag" (.vbool true) rfl).1 rfl).1,
   (validation_rejects_before_backend simClient "RobotAck" (.vbool true) rfl).2.2.1 rfl rfl⟩

/-- C8: the simulated device read never fails — it returns the stored
value when the physical name is present, and the zero default when it is
unknown. -/
theorem simulated_read_never_fails (p : SimulatedPLC) (name : String) :
    (∀ v : Value, p.tags.lookup name = some v → p.read_variable name = v) ∧
    (p.tags.lookup name = none → p.read_variable name = .vint 0) := by
  constructor
  · intro v hv
    simp [SimulatedPLC.read_variable, hv]
  · intro hv
    simp [SimulatedPLC.read_variable, hv]

/-- Witness for C8: the fresh simulated device returns the seeded value of
a present register and the zero default for an unknown one. -/
theorem simulated_read_never_fails_witness :
    SimulatedPLC.start.read_variable "ROBOT_READY" = .vbool true ∧
    SimulatedPLC.start.read_variable "NoSuchRegister" = .vint 0 :=
  ⟨(simulated_read_never_fails SimulatedPLC.start "ROBOT_READY").1 (.vbool true) rfl,
   (simulated_read_never_fails SimulatedPLC.start "NoSuchRegister").2 rfl⟩

/-- C9: writing a value to the simulated device and immediately reading
the same physical name back returns that value; in particular this holds
for every boolean tag. -/
theorem simulated_write_read_roundtrip (p : SimulatedPLC) (name : String) (v : Value) :
    (p.write_variable name v).read_variable name = v := by
  simp [SimulatedPLC.write_variable, SimulatedPLC.read_variable, List.lookup]

/-- C10: `write_detection_result` never raises — a raised sub-write error
is converted into the return value `false` instead of propagating.  On a
client that is not connected, the not-connected error of the very first
sub-write is caught and the call returns `false` with the client
unchanged; and whatever error of whatever kind the first sub-write raises
(not-connected, validation, or wrapped backend failure), the call returns
`false` with the state the failing sub-write left behind. -/
theorem write_detection_result_catches_errors (c c2 : Client) (d : Bool)
    (x y cf : ℚ) (n : Int) (t : ℚ) :
    (c.state.is_connected = false → write_detection_result c d x y cf n t = (false, c)) ∧
    (∀ e : CIPErr, write_tag c "ProductDetected" (.vbool d) = (.error e, c2) →
       write_detection_result c d x y cf n t = (false, c2)) := by
  constructor
  · intro h
    simp [write_detection_result, write_tag, h]
  · intro e h
    simp [write_detection_result, h]

/-- Witness for C10 on a concrete disconnected client: both the
not-connected conversion and the first-sub-write error conversion at the
concrete connection error. -/
theorem write_detection_result_catches_errors_witness :
    write_detection_result discClient true 1 2 (9/10) 3 (7/2) = (false, discClient) ∧
    write_detection_result discClient true 1 2 (9/10) 3 (7/2) = (false, discClient) :=
  ⟨(write_detection_result_catches_errors discClient discClient true 1 2 (9/10) 3 (7/2)).1 rfl,
   (write_detection_result_catches_errors discClient discClient true 1 2 (9/10) 3 (7/2)).2
     .connectionError rfl⟩

/-- C2 (failing part, evaluated on the code): after a real connection, one
failed driver write leaves the error counter at 1; a `disconnect()`
followed by a successful `connect()` returns success and re-enters
CONNECTED, but the error counter is still 1 — neither `disconnect` nor
`connect` ever assigns `error_count := 0`, so the counter is not reset as
the claim states. -/
theorem reconnect_retains_error_count :
    cTraceErr.state.error_count = 1 ∧
    cTraceReconnect.ok = true ∧
    cTraceReconnect.client.state.status = .CONNECTED ∧
    cTraceReconnect.client.state.error_count = 1 := by
  refine ⟨rfl, rfl, rfl, rfl⟩

/-- C3 (failing part, evaluated on the code): a connect whose transport
fails leaves a simulated session with `is_simulated = true`; after a
`disconnect()` and a subsequent genuinely successful real `connect()`, the
status is CONNECTED while `is_simulated` is still `true` — no code path
ever resets the flag to `false`, violating the claimed invariant that
CONNECTED implies `is_simulated = false`. -/
theorem connected_after_simulated_keeps_flag :
    simClient.state.status = .SIMULATED ∧
    simClient.state.is_simulated = true ∧
    cTraceRealAfterSim.state.status = .CONNECTED ∧
    cTraceRealAfterSim.state.is_simulated = true := by
  refine ⟨rfl, rfl, rfl, rfl⟩

/-- Helper for C4: when every driver write succeeds, the composite write
performs the full seven-write sequence in order and returns true. -/
theorem wdr_real_all_success (ip : String) (port timeout : Nat) (sim : Bool)
    (p : RealPLC) (st : ConnectionState) (d : Bool) (x y cf : ℚ) (n : Int) (t : ℚ)
    (hconn : st.is_connected = true)
    (hall : ∀ k, k < 7 → p.writeBeh (p.count + k) = true) :
    write_detection_result (mkRealClient ip port timeout sim p st) d x y cf n t =
      (true, mkRealClient ip port timeout sim
        { p with
          calls := p.calls ++ detectionWrites d x y cf n t
          count := p.count + 7 } st) := by
  have h0 : p.writeBeh p.count = true := by simpa using hall 0 (by norm_num)
  have h1 : p.writeBeh (p.count + 1) = true := hall 1 (by norm_num)
  have h2 : p.writeBeh (p.count + 2) = true := hall 2 (by norm_num)
  have h3 : p.writeBeh (p.count + 3) = true := hall 3 (by norm_num)
  have h4 : p.writeBeh (p.count + 4) = true := hall 4 (by norm_num)
  have h5 : p.writeBeh (p.count + 5) = true := hall 5 (by norm_num)
  have h6 : p.writeBeh (p.count + 6) = true := hall 6 (by norm_num)
  simp [write_detection_result, write_tag, mkRealClient, RealPLC.write_variable, hconn,
        h0, h1, h2, h3, h4, h5, h6, detectionWrites, defaultTagMap, TagMap.is_valid_tag,
        TagMap.is_writable, TagMap.validate_value, TagMap.get_plc_name, TagMap.find,
        Value.kind, List.lookup, add_assoc]

/-- Helper for C4: when the k-th driver write is the first to fail, the
composite write returns false and the driver has observed exactly the
first k+1 writes of the sequence. -/
theorem wdr_real_stops (ip : String) (port timeout : Nat) (sim : Bool)
    (p : RealPLC) (st : ConnectionState) (d : Bool) (x y cf : ℚ) (n : Int) (t : ℚ)
    (k : Nat) (hconn : st.is_connected = true) (hk : k < 7)
    (hfail : p.writeBeh (p.count + k) = false)
    (hpre : ∀ j, j < k → p.writeBeh (p.count + j) = true) :
    (write_detection_result (mkRealClient ip port timeout sim p st) d x y cf n t).1 = false ∧
    (write_detection_result (mkRealClient ip port timeout sim p st) d x y cf n t).2.backendCalls
      = p.calls ++ (detectionWrites d x y cf n t).take (k + 1) := by
  interval_cases k
  · have hf : p.writeBeh p.count = false := by simpa using hfail
    simp [write_detection_result, write_tag, mkRealClient, RealPLC.write_variable, hconn,
          hf, detectionWrites, defaultTagMap, TagMap.is_valid_tag, Client.backendCalls,
          TagMap.is_writable, TagMap.validate_value, TagMap.get_plc_name, TagMap.find,
          Value.kind, List.lookup, handle_error]
  · have g0 : p.writeBeh p.count = true := by simpa using hpre 0 (by norm_num)
    simp [write_detection_result, write_tag, mkRealClient, RealPLC.write_variable, hconn,
          g0, hfail, detectionWrites, defaultTagMap, TagMap.is_valid_tag, Client.backendCalls,
          TagMap.is_writable, TagMap.validate_value, TagMap.get_plc_name, TagMap.find,
          Value.kind, List.lookup, handle_error]
  · have g0 : p.writeBeh p.count = true := by simpa using hpre 0 (by norm_num)
    have g1 : p.writeBeh (p.count + 1) = true := hpre 1 (by norm_num)
    simp [write_detection_result, write_tag, mkRealClient, RealPLC.write_variable, hconn,
          g0, g1, hfail, detectionWrites, defaultTagMap, TagMap.is_valid_tag, Client.backendCalls,
          TagMap.is_writable, TagMap.validate_value, TagMap.get_plc_name, TagMap.find,
          Value.kind, List.lookup, handle_error]
  · have g0 : p.writeBeh p.count = true := by simpa using hpre 0 (by norm_num)
    have g1 : p.writeBeh (p.count + 1) = true := hpre 1 (by norm_num)
    have g2 : p.writeBeh (p.count + 2) = true := hpre 2 (by norm_num)
    simp [write_detection_result, write_tag, mkRealClient, RealPLC.write_variable, hconn,
          g0, g1, g2, hfail, detectionWrites, defaultTagMap, TagMap.is_valid_tag, Client.backendCalls,
          TagMap.is_writable, TagMap.validate_value, TagMap.get_plc_name, TagMap.find,
          Value.kind, List.lookup, handle_error]
  · have g0 : p.writeBeh p.count = true := by simpa using hpre 0 (by norm_num)
    have g1 : p.writeBeh (p.count + 1) = true := hpre 1 (by norm_num)
    have g2 : p.writeBeh (p.count + 2) = true := hpre 2 (by norm_num)
    have g3 : p.writeBeh (p.count + 3) = true := hpre 3 (by norm_num)
    simp [write_detection_result, write_tag, mkRealClient, RealPLC.write_variable, hconn,
          g0, g1, g2, g3, hfail, detectionWrites, defaultTagMap, TagMap.is_valid_tag, Client.backendCalls,
          TagMap.is_writable, TagMap.validate_value, TagMap.get_plc_name, TagMap.find,
          Value.kind, List.lookup, handle_error]
  · have g0 : p.writeBeh p.count = true := by simpa using hpre 0 (by norm_num)
    have g1 : p.writeBeh (p.count + 1) = true := hpre 1 (by norm_num)
    have g2 : p.writeBeh (p.count + 2) = true := hpre 2 (by norm_num)
    have g3 : p.writeBeh (p.count + 3) = true := hpre 3 (by norm_num)
    have g4 : p.writeBeh (p.count + 4) = true := hpre 4 (by norm_num)
    simp [write_detection_result, write_tag, mkRealClient, RealPLC.write_variable, hconn,
          g0, g1, g2, g3, g4, hfail, detectionWrites, defaultTagMap, TagMap.is_valid_tag, Client.backendCalls,
          TagMap.is_writable, TagMap.validate_value, TagMap.get_plc_name, TagMap.find,
          Value.kind, List.lookup, handle_error]
  · have g0 : p.writeBeh p.count = true := by simpa using hpre 0 (by norm_num)
    have g1 : p.writeBeh (p.count + 1) = true := hpre 1 (by norm_num)
    have g2 : p.writeBeh (p.count + 2) = true := hpre 2 (by norm_num)
    have g3 : p.writeBeh (p.count + 3) = true := hpre 3 (by norm_num)
    have g4 : p.writeBeh (p.count + 4) = true := hpre 4 (by norm_num)
    have g5 : p.writeBeh (p.count + 5) = true := hpre 5 (by norm_num)
    simp [write_detection_result, write_tag, mkRealClient, RealPLC.write_variable, hconn,
          g0, g1, g2, g3, g4, g5, hfail, detectionWrites, defaultTagMap, TagMap.is_valid_tag, Client.backendCalls,
          TagMap.is_writable, TagMap.validate_value, TagMap.get_plc_name, TagMap.find,
          Value.kind, List.lookup, handle_error]

/-- C4: `write_detection_result` on a connected client with a real driver
session performs its sub-writes in the fixed order detection flag,
centroid X, centroid Y, confidence, detection count, processing time,
data-sent flag; it succeeds exactly when every sub-write succeeds, and
when the k-th sub-write is the first to fail it attempts exactly the
sub-writes up to and including the k-th, never a later one. -/
theorem write_detection_result_sequence (c : Client) (p : RealPLC) (d : Bool)
    (x y cf : ℚ) (n : Int) (t : ℚ)
    (htm : c.tagMap = defaultTagMap) (hconn : c.state.is_connected = true)
    (hplc : c.plc = some p) (hsim : c.simulatedPlc = none) :
    ((∀ k, k < 7 → p.writeBeh (p.count + k) = true) →
       (write_detection_result c d x y cf n t).1 = true ∧
       (write_detection_result c d x y cf n t).2.backendCalls =
         p.calls ++ detectionWrites d x y cf n t) ∧
    (∀ k, k < 7 → p.writeBeh (p.count + k) = false →
       (∀ j, j < k → p.writeBeh (p.count + j) = true) →
       (write_detection_result c d x y cf n t).1 = false ∧
       (write_detection_result c d x y cf n t).2.backendCalls =
         p.calls ++ (detectionWrites d x y cf n t).take (k + 1)) ∧
    ((write_detection_result c d x y cf n t).1 = true ↔
       ∀ k, k < 7 → p.writeBeh (p.count + k) = true) := by
  obtain ⟨tm, cip, cport, cto, csim, cplc, csplc, cst⟩ := c
  dsimp only at htm hconn hplc hsim
  subst htm hplc hsim
  have hA : (∀ k, k < 7 → p.writeBeh (p.count + k) = true) →
      (write_detection_result (mkRealClient cip cport cto csim p cst) d x y cf n t).1 = true ∧
      (write_detection_result (mkRealClient cip cport cto csim p cst) d x y cf n t).2.backendCalls
        = p.calls ++ detectionWrites d x y cf n t := by
    intro hall
    rw [wdr_real_all_success cip cport cto csim p cst d x y cf n t hconn hall]
    simp [Client.backendCalls, mkRealClient]
  have hB : ∀ k, k < 7 → p.writeBeh (p.count + k) = false →
      (∀ j, j < k → p.writeBeh (p.count + j) = true) →
      (write_detection_result (mkRealClient cip cport cto csim p cst) d x y cf n t).1 = false ∧
      (write_detection_result (mkRealClient cip cport cto csim p cst) d x y cf n t).2.backendCalls
        = p.calls ++ (detectionWrites d x y cf n t).take (k + 1) :=
    fun k hk hf hp =>
      wdr_real_stops cip cport cto csim p cst d x y cf n t k hconn hk hf hp
  refine ⟨hA, hB, ⟨fun htrue => ?_, fun hall => (hA hall).1⟩⟩
  by_contra hnot
  push_neg at hnot
  obtain ⟨k, hk7, hkf⟩ := hnot
  have hkf2 : p.writeBeh (p.count + k) = false := by
    cases hb : p.writeBeh (p.count + k)
    · rfl
    · exact absurd hb hkf
  have hex : ∃ j, p.writeBeh (p.count + j) = false := ⟨k, hkf2⟩
  have hspec : p.writeBeh (p.count + Nat.find hex) = false := Nat.find_spec hex
  have hle : Nat.find hex ≤ k := Nat.find_min' hex hkf2
  have h7 : Nat.find hex < 7 := lt_of_le_of_lt hle hk7
  have hmin : ∀ j, j < Nat.find hex → p.writeBeh (p.count + j) = true := by
    intro j hj
    have hne := Nat.find_min hex hj
    cases hb : p.writeBeh (p.count + j)
    · exact absurd hb hne
    · rfl
  have hfalse := (hB (Nat.find hex) h7 hspec hmin).1
  simp only [mkRealClient] at hfalse
  rw [hfalse] at htrue
  simp at htrue

/-- Witness for C4, the spec's third-sub-write scenario: with a driver
that fails from its third write on, the composite call returns false and
the driver observed exactly the first three writes. -/
theorem write_detection_result_sequence_witness :
    (write_detection_result failThirdClient true 1 2 (9/10) 3 (7/2)).1 = false ∧
    (write_detection_result failThirdClient true 1 2 (9/10) 3 (7/2)).2.backendCalls =
      (detectionWrites true 1 2 (9/10) 3 (7/2)).take 3 := by
  have h := (write_detection_result_sequence failThirdClient failThirdPLC true 1 2 (9/10) 3 (7/2)
      rfl rfl rfl rfl).2.1 2 (by norm_num) (by decide) (by decide)
  simpa [failThirdPLC] using h

end CIP
